import Mathlib

/-!
Verification of `basic_operations.py`, a customer-repository module offering
five operations (add, search, delete, update-credit, count-active) over a
single `customers` table in a relational store, accessed via the peewee ORM.

The database is embedded shallowly as a list of `Customer` records
(`customer_id` is the primary key of the table); each Python function becomes
a Lean function in explicit state-passing style `DB → ... → DB × output`.
The SQL layer behind peewee is modelled by its standard semantics:
`Customer.create` raises `IntegrityError` when a row with the same primary key
already exists (in `add_customer` that exception is caught and logged, so the
state is unchanged and a warning flag is the only visible outcome);
`get_or_none` returns the first row matching the filter or `None`;
`delete().where(...).execute()` removes every matching row and returns the
number of rows removed; `customer.save()` on a fetched row writes the row
with that primary key.
-/

/-- One row of the `customers` table, as declared by the `Customer` model
(fields in the order `add_customer` receives them). -/
structure Customer where
  customer_id : String
  name : String
  last_name : String
  home_address : String
  phone_number : String
  email_address : String
  status : String
  credit_limit : Int
deriving DecidableEq, Repr

/-- The database state: the rows of the `customers` table. -/
abbrev DB := List Customer

/-- A Python dict value appearing in `search_customer`'s result: every field
is a string except the numeric `credit_limit`. -/
inductive Value where
  | str (s : String)
  | num (n : Int)
deriving DecidableEq, Repr

/-- The dict literal built by `search_customer` when the row is found:
all eight columns, keyed by column name. -/
def customer_to_dict (c : Customer) : List (String × Value) :=
  [("customer_id", .str c.customer_id),
   ("name", .str c.name),
   ("last_name", .str c.last_name),
   ("home_address", .str c.home_address),
   ("phone_number", .str c.phone_number),
   ("email_address", .str c.email_address),
   ("status", .str c.status),
   ("credit_limit", .num c.credit_limit)]

/-- Whether a row with the given primary key exists (the condition under which
the SQL layer raises `IntegrityError` on insert). -/
def db_has_id (db : DB) (customer_id : String) : Bool :=
  db.any (fun c => c.customer_id == customer_id)

/-- `add_customer`: inserts a new row inside `database.atomic()`.  A duplicate
primary key makes `Customer.create` raise `peewee.IntegrityError`, which the
function catches, prints and logs as a warning; the returned flag records
whether that warning was emitted.  No exception escapes to the caller. -/
def add_customer (db : DB) (customer_id name last_name home_address
    phone_number email_address status : String) (credit_limit : Int) :
    DB × Bool :=
  if db_has_id db customer_id then
    (db, true)
  else
    (db ++ [⟨customer_id, name, last_name, home_address, phone_number,
            email_address, status, credit_limit⟩], false)

/-- `search_customer`: `Customer.get_or_none(Customer.customer_id == id)`,
then either the full eight-key dict or the empty dict `{}` (modelled as the
empty association list). -/
def search_customer (db : DB) (customer_id : String) :
    DB × List (String × Value) :=
  match db.find? (fun c => c.customer_id == customer_id) with
  | some c => (db, customer_to_dict c)
  | none => (db, [])

/-- `delete_customer`: `Customer.delete().where(...).execute()` removes the
matching rows and returns how many were removed; a `UserWarning` is emitted
exactly when that count is zero.  The returned flag records the warning. -/
def delete_customer (db : DB) (customer_id : String) : DB × Bool :=
  let deleted := db.countP (fun c => c.customer_id == customer_id)
  (db.filter (fun c => !(c.customer_id == customer_id)), deleted == 0)

/-- `update_customer_credit`: fetches the row via `get_or_none`; if present,
sets its `credit_limit` and `save()`s it (an update of the row with that
primary key), otherwise raises `ValueError` (the `Except.error` case, with
the state unchanged since nothing was written before the raise). -/
def update_customer_credit (db : DB) (customer_id : String)
    (credit_limit : Int) : DB × Except Unit Unit :=
  match db.find? (fun c => c.customer_id == customer_id) with
  | some _ =>
    (db.map (fun c =>
      if c.customer_id == customer_id then { c with credit_limit } else c),
     Except.ok ())
  | none => (db, Except.error ())

/-- `list_active_customers`: `len` of
`Customer.select().where(Customer.status == 'Active')`. -/
def list_active_customers (db : DB) : DB × Nat :=
  (db, (db.filter (fun c => c.status == "Active")).length)

/-- One call to any of the five operations, with its arguments. -/
inductive Op where
  | add (customer_id name last_name home_address phone_number
         email_address status : String) (credit_limit : Int)
  | search (customer_id : String)
  | delete (customer_id : String)
  | update (customer_id : String) (credit_limit : Int)
  | listActive
deriving DecidableEq, Repr

/-- The state transition of one operation (outputs discarded). -/
def apply_op (db : DB) : Op → DB
  | .add cid n l a p e s cr => (add_customer db cid n l a p e s cr).1
  | .search cid => (search_customer db cid).1
  | .delete cid => (delete_customer db cid).1
  | .update cid cr => (update_customer_credit db cid cr).1
  | .listActive => (list_active_customers db).1

/-- Running a sequence of operations from a starting state. -/
def run_ops (db : DB) (ops : List Op) : DB :=
  ops.foldl apply_op db

/-- The data-model invariant: `customer_id` is unique across all rows. -/
def uniqueIds (db : DB) : Prop :=
  (db.map Customer.customer_id).Nodup

/-! ### Helper lemmas -/

theorem db_has_id_false_iff (db : DB) (cid : String) :
    db_has_id db cid = false ↔ ∀ c ∈ db, c.customer_id ≠ cid := by
  simp [db_has_id]

theorem find?_eq_none_of_absent (db : DB) (cid : String)
    (h : db_has_id db cid = false) :
    db.find? (fun c => c.customer_id == cid) = none := by
  rw [List.find?_eq_none]
  intro c hc
  simpa using (db_has_id_false_iff db cid).mp h c hc

theorem find?_isSome_of_present (db : DB) (cid : String)
    (h : db_has_id db cid = true) :
    (db.find? (fun c => c.customer_id == cid)).isSome := by
  rw [List.find?_isSome]
  simpa [db_has_id] using h

/-! ### Claim theorems -/

/-- C2: when a row with the given `customer_id` already exists, a second
`add_customer` with that id swallows the duplicate-key error (the function
returns normally, only flagging the logged warning) and leaves the entire
database state, in particular the original record's fields, unchanged. -/
theorem add_customer_duplicate_noop (db : DB) (cid n l a p e s : String)
    (cr : Int) (h : db_has_id db cid = true) :
    add_customer db cid n l a p e s cr = (db, true) := by
  simp [add_customer, h]

/-- Witness for C2 at a concrete one-row database. -/
theorem add_customer_duplicate_noop_witness :
    add_customer [⟨"7", "Ada", "L", "a1", "p1", "e1", "Active", 5⟩]
      "7" "Bob" "M" "a2" "p2" "e2" "Inactive" 9 =
      ([⟨"7", "Ada", "L", "a1", "p1", "e1", "Active", 5⟩], true) :=
  add_customer_duplicate_noop
    [⟨"7", "Ada", "L", "a1", "p1", "e1", "Active", 5⟩]
    "7" "Bob" "M" "a2" "p2" "e2" "Inactive" 9 (by decide)

/-- C3: `search_customer` returns the empty mapping exactly when no row has
the requested id; when a row is present it returns the full eight-field
mapping (customer_id, name, last_name, home_address, phone_number,
email_address, status, credit_limit) of that record. -/
theorem search_customer_found_or_empty (db : DB) (cid : String) :
    (db_has_id db cid = false → (search_customer db cid).2 = []) ∧
    (db_has_id db cid = true →
      ∃ c, c ∈ db ∧ c.customer_id = cid ∧
        (search_customer db cid).2 = customer_to_dict c) := by
  constructor
  · intro h
    simp [search_customer, find?_eq_none_of_absent db cid h]
  · intro h
    obtain ⟨c, hc⟩ := Option.isSome_iff_exists.mp (find?_isSome_of_present db cid h)
    refine ⟨c, List.mem_of_find?_eq_some hc, ?_, ?_⟩
    · simpa using List.find?_some hc
    · simp [search_customer, hc]

/-- Witness for C3 at a concrete database: the absent id "2" gives the empty
mapping. -/
theorem search_customer_found_or_empty_witness :
    (search_customer [⟨"1", "Ada", "L", "a1", "p1", "e1", "Active", 5⟩] "2").2
      = [] :=
  (search_customer_found_or_empty
    [⟨"1", "Ada", "L", "a1", "p1", "e1", "Active", 5⟩] "2").1 (by decide)

/-- C4: deleting an absent id leaves the database unchanged, emits the
user-facing warning (the `true` flag), and, being a total function of the
state, raises nothing to the caller. -/
theorem delete_customer_absent_noop (db : DB) (cid : String)
    (h : db_has_id db cid = false) :
    delete_customer db cid = (db, true) := by
  have hall := (db_has_id_false_iff db cid).mp h
  unfold delete_customer
  have hfilter : db.filter (fun c => !(c.customer_id == cid)) = db := by
    rw [List.filter_eq_self]
    intro c hc
    simpa using hall c hc
  have hcount : db.countP (fun c => c.customer_id == cid) = 0 := by
    rw [List.countP_eq_zero]
    intro c hc
    simpa using hall c hc
  simp [hfilter, hcount]

/-- Witness for C4 at a concrete one-row database. -/
theorem delete_customer_absent_noop_witness :
    delete_customer [⟨"1", "Ada", "L", "a1", "p1", "e1", "Active", 5⟩] "2" =
      ([⟨"1", "Ada", "L", "a1", "p1", "e1", "Active", 5⟩], true) :=
  delete_customer_absent_noop
    [⟨"1", "Ada", "L", "a1", "p1", "e1", "Active", 5⟩] "2" (by decide)

/-- C5: `update_customer_credit` raises `ValueError` (the `Except.error`
outcome) exactly when the id is absent, and in that case the database state
is unchanged. -/
theorem update_customer_credit_absent_raises (db : DB) (cid : String)
    (cr : Int) :
    ((update_customer_credit db cid cr).2 = Except.error () ↔
      db_has_id db cid = false) ∧
    (db_has_id db cid = false → (update_customer_credit db cid cr).1 = db) := by
  refine ⟨⟨fun he => ?_, fun h => ?_⟩, fun h => ?_⟩
  · by_contra hne
    have hsome := find?_isSome_of_present db cid (by
      cases hdb : db_has_id db cid with
      | true => rfl
      | false => exact absurd hdb hne)
    obtain ⟨c, hc⟩ := Option.isSome_iff_exists.mp hsome
    rw [update_customer_credit, hc] at he
    exact Except.noConfusion he
  · rw [update_customer_credit, find?_eq_none_of_absent db cid h]
  · rw [update_customer_credit, find?_eq_none_of_absent db cid h]

/-- C9: `search_customer` and `list_active_customers` are read-only queries:
the database state they return is the one they were given. -/
theorem search_and_list_read_only (db : DB) (cid : String) :
    (search_customer db cid).1 = db ∧ (list_active_customers db).1 = db := by
  constructor
  · unfold search_customer
    cases db.find? (fun c => c.customer_id == cid) <;> rfl
  · rfl

/-- C10: `delete_customer` emits its warning exactly when the deleted-row
count is zero, i.e. exactly when no record with the id existed. -/
theorem delete_customer_warning_iff_absent (db : DB) (cid : String) :
    (delete_customer db cid).2 = true ↔ db_has_id db cid = false := by
  unfold delete_customer
  simp [List.countP_eq_zero, db_has_id_false_iff]

/-- C1: adding a fresh id and then searching for it returns exactly the
mapping of the supplied field values. -/
theorem add_then_search_roundtrip (db : DB) (cid n l a p e s : String)
    (cr : Int) (h : db_has_id db cid = false) :
    (search_customer (add_customer db cid n l a p e s cr).1 cid).2 =
      customer_to_dict ⟨cid, n, l, a, p, e, s, cr⟩ := by
  have hadd : (add_customer db cid n l a p e s cr).1 =
      db ++ [⟨cid, n, l, a, p, e, s, cr⟩] := by
    simp [add_customer, h]
  rw [hadd]
  unfold search_customer
  rw [List.find?_append, find?_eq_none_of_absent db cid h]
  simp [List.find?]

/-- Witness for C1 at a concrete database. -/
theorem add_then_search_roundtrip_witness :
    (search_customer
      (add_customer [⟨"1", "Ada", "L", "a1", "p1", "e1", "Active", 5⟩]
        "2" "Bob" "M" "a2" "p2" "e2" "Inactive" 9).1 "2").2 =
      customer_to_dict ⟨"2", "Bob", "M", "a2", "p2", "e2", "Inactive", 9⟩ :=
  add_then_search_roundtrip
    [⟨"1", "Ada", "L", "a1", "p1", "e1", "Active", 5⟩]
    "2" "Bob" "M" "a2" "p2" "e2" "Inactive" 9 (by decide)

/-- Witness for C5 at a concrete database with the id absent. -/
theorem update_customer_credit_absent_raises_witness :
    ((update_customer_credit [⟨"1", "Ada", "L", "a1", "p1", "e1", "Active", 5⟩]
        "2" 9).2 = Except.error () ↔
      db_has_id [⟨"1", "Ada", "L", "a1", "p1", "e1", "Active", 5⟩] "2"
        = false) ∧
    (db_has_id [⟨"1", "Ada", "L", "a1", "p1", "e1", "Active", 5⟩] "2"
        = false →
      (update_customer_credit [⟨"1", "Ada", "L", "a1", "p1", "e1", "Active", 5⟩]
        "2" 9).1 = [⟨"1", "Ada", "L", "a1", "p1", "e1", "Active", 5⟩]) :=
  update_customer_credit_absent_raises
    [⟨"1", "Ada", "L", "a1", "p1", "e1", "Active", 5⟩] "2" 9

/-- The `add_customer` call that inserts a given row (used to phrase the
"after adding these customers" scenarios). -/
def op_of_customer (c : Customer) : Op :=
  .add c.customer_id c.name c.last_name c.home_address c.phone_number
    c.email_address c.status c.credit_limit

theorem run_adds_eq (cs : List Customer) (db : DB)
    (hfresh : ∀ c ∈ cs, db_has_id db c.customer_id = false)
    (hnodup : (cs.map Customer.customer_id).Nodup) :
    run_ops db (cs.map op_of_customer) = db ++ cs := by
  induction cs generalizing db with
  | nil => simp [run_ops]
  | cons c rest ih =>
    have hc : db_has_id db c.customer_id = false := hfresh c (by simp)
    have hstep : apply_op db (op_of_customer c) = db ++ [c] := by
      simp [apply_op, op_of_customer, add_customer, hc]
    rw [List.map_cons] at hnodup
    obtain ⟨hhead, htail⟩ := List.nodup_cons.mp hnodup
    have hfresh2 : ∀ x ∈ rest, db_has_id (db ++ [c]) x.customer_id = false := by
      intro x hx
      rw [db_has_id_false_iff]
      intro y hy
      rcases List.mem_append.mp hy with hyd | hyc
      · exact (db_has_id_false_iff db _).mp (hfresh x (List.mem_cons_of_mem c hx)) y hyd
      · have hyc : y = c := by simpa using hyc
        subst hyc
        intro heq
        exact hhead (heq ▸ List.mem_map_of_mem Customer.customer_id hx)
    have hrun : run_ops db (op_of_customer c :: rest.map op_of_customer) =
        run_ops (apply_op db (op_of_customer c)) (rest.map op_of_customer) := rfl
    rw [List.map_cons, hrun, hstep, ih (db ++ [c]) hfresh2 htail,
      List.append_assoc]
    rfl

/-- C6: `list_active_customers` counts the rows whose `status` is exactly
"Active"; in particular, after adding any collection of customers with
distinct ids to an empty database, it returns the number of them whose
status is "Active" (so n1 of them Active and n2 Inactive gives n1). -/
theorem list_active_customers_count (db : DB) (cs : List Customer)
    (hnodup : uniqueIds cs) :
    (list_active_customers db).2 = db.countP (fun c => c.status == "Active") ∧
    (list_active_customers (run_ops [] (cs.map op_of_customer))).2 =
      cs.countP (fun c => c.status == "Active") := by
  constructor
  · simp [list_active_customers, List.countP_eq_length_filter]
  · rw [run_adds_eq cs [] (by simp [db_has_id]) hnodup]
    simp [list_active_customers, List.countP_eq_length_filter]

/-- Witness for C6: one Active and one Inactive customer give count 1. -/
theorem list_active_customers_count_witness :
    (list_active_customers ([] : DB)).2 = ([] : DB).countP
        (fun c => c.status == "Active") ∧
    (list_active_customers (run_ops []
        ([⟨"1", "Ada", "L", "a1", "p1", "e1", "Active", 5⟩,
          ⟨"2", "Bob", "M", "a2", "p2", "e2", "Inactive", 9⟩].map
          op_of_customer))).2 =
      ([⟨"1", "Ada", "L", "a1", "p1", "e1", "Active", 5⟩,
        ⟨"2", "Bob", "M", "a2", "p2", "e2", "Inactive", 9⟩] : DB).countP
        (fun c => c.status == "Active") :=
  list_active_customers_count []
    [⟨"1", "Ada", "L", "a1", "p1", "e1", "Active", 5⟩,
     ⟨"2", "Bob", "M", "a2", "p2", "e2", "Inactive", 9⟩]
    (by unfold uniqueIds ; decide)

theorem find?_map_of_id_preserved (g : Customer → Customer)
    (hg : ∀ c, (g c).customer_id = c.customer_id) (db : DB) (q : String) :
    (db.map g).find? (fun c => c.customer_id == q) =
      (db.find? (fun c => c.customer_id == q)).map g := by
  induction db with
  | nil => rfl
  | cons c rest ih =>
    by_cases hc : c.customer_id = q
    · rw [List.map_cons,
        List.find?_cons_of_pos _ (by simpa [hg] using hc),
        List.find?_cons_of_pos _ (by simpa using hc)]
      rfl
    · rw [List.map_cons,
        List.find?_cons_of_neg _ (by simpa [hg] using hc),
        List.find?_cons_of_neg _ (by simpa using hc)]
      exact ih

/-- C7: updating the credit of a present id succeeds, the record then reads
back with `credit_limit` set to the new limit and all seven other fields as
before, and the search result of every other id is untouched. -/
theorem update_customer_credit_frame (db : DB) (cid : String) (cr : Int)
    (h : db_has_id db cid = true) :
    ∃ c, c ∈ db ∧ c.customer_id = cid ∧
      (update_customer_credit db cid cr).2 = Except.ok () ∧
      (search_customer (update_customer_credit db cid cr).1 cid).2 =
        customer_to_dict { c with credit_limit := cr } ∧
      ∀ q : String, q ≠ cid →
        (search_customer (update_customer_credit db cid cr).1 q).2 =
          (search_customer db q).2 := by
  obtain ⟨c, hc⟩ :=
    Option.isSome_iff_exists.mp (find?_isSome_of_present db cid h)
  have hcid : c.customer_id = cid := by simpa using List.find?_some hc
  set g : Customer → Customer := fun x =>
    if x.customer_id == cid then { x with credit_limit := cr } else x with hgdef
  have hg : ∀ x : Customer, (g x).customer_id = x.customer_id := by
    intro x
    by_cases hx : x.customer_id = cid
    · simp [hgdef, hx]
    · simp [hgdef, hx]
  have hupd : update_customer_credit db cid cr = (db.map g, Except.ok ()) := by
    rw [update_customer_credit, hc]
  refine ⟨c, List.mem_of_find?_eq_some hc, hcid, by rw [hupd], ?_, ?_⟩
  · rw [hupd]
    unfold search_customer
    rw [find?_map_of_id_preserved g hg db cid, hc]
    simp [hgdef, hcid]
  · intro q hq
    rw [hupd]
    unfold search_customer
    rw [find?_map_of_id_preserved g hg db q]
    cases hfq : db.find? (fun x => x.customer_id == q) with
    | none => rfl
    | some c2 =>
      have hc2 : c2.customer_id = q := by simpa using List.find?_some hfq
      have : g c2 = c2 := by
        simp [hgdef, hc2, hq]
      simp [this]

/-- Witness for C7 at a concrete one-row database. -/
theorem update_customer_credit_frame_witness :
    ∃ c, c ∈ ([⟨"1", "Ada", "L", "a1", "p1", "e1", "Active", 5⟩] : DB) ∧
      c.customer_id = "1" ∧
      (update_customer_credit
        [⟨"1", "Ada", "L", "a1", "p1", "e1", "Active", 5⟩] "1" 42).2 =
        Except.ok () ∧
      (search_customer (update_customer_credit
        [⟨"1", "Ada", "L", "a1", "p1", "e1", "Active", 5⟩] "1" 42).1 "1").2 =
        customer_to_dict { c with credit_limit := 42 } ∧
      ∀ q : String, q ≠ "1" →
        (search_customer (update_customer_credit
          [⟨"1", "Ada", "L", "a1", "p1", "e1", "Active", 5⟩] "1" 42).1 q).2 =
          (search_customer
            [⟨"1", "Ada", "L", "a1", "p1", "e1", "Active", 5⟩] q).2 :=
  update_customer_credit_frame
    [⟨"1", "Ada", "L", "a1", "p1", "e1", "Active", 5⟩] "1" 42 (by decide)

theorem apply_op_preserves_uniqueIds (db : DB) (op : Op)
    (h : uniqueIds db) : uniqueIds (apply_op db op) := by
  unfold uniqueIds at h ⊢
  cases op with
  | add cid n l a p e s cr =>
    cases hdb : db_has_id db cid with
    | true => simpa [apply_op, add_customer, hdb] using h
    | false =>
      have hnotin : cid ∉ db.map Customer.customer_id := by
        intro hmem
        obtain ⟨c, hcmem, hceq⟩ := List.mem_map.mp hmem
        exact (db_has_id_false_iff db cid).mp hdb c hcmem hceq
      simp only [apply_op, add_customer, hdb, Bool.false_eq_true,
        if_false, List.map_append]
      refine List.Nodup.append h (by simp) ?_
      simpa [List.disjoint_singleton] using hnotin
  | search cid =>
    show ((search_customer db cid).1.map Customer.customer_id).Nodup
    unfold search_customer
    cases db.find? (fun c => c.customer_id == cid) <;> exact h
  | delete cid =>
    have hsub : List.Sublist ((delete_customer db cid).1.map Customer.customer_id)
        (db.map Customer.customer_id) := by
      unfold delete_customer
      exact (db.filter_sublist).map Customer.customer_id
    exact h.sublist hsub
  | update cid cr =>
    show ((update_customer_credit db cid cr).1.map Customer.customer_id).Nodup
    unfold update_customer_credit
    cases db.find? (fun c => c.customer_id == cid) with
    | none => exact h
    | some c =>
      have hids : (db.map (fun c =>
          if c.customer_id == cid then { c with credit_limit := cr }
          else c)).map Customer.customer_id = db.map Customer.customer_id := by
        rw [List.map_map]
        refine List.map_congr_left ?_
        intro x _
        by_cases hx : x.customer_id = cid
        · simp [Function.comp, hx]
        · simp [Function.comp, hx]
      show ((db.map (fun c =>
        if c.customer_id == cid then { c with credit_limit := cr }
        else c)).map Customer.customer_id).Nodup
      rw [hids]
      exact h
  | listActive => exact h

/-- C8: every database state reachable from a state with unique customer ids
by any sequence of the five operations still has unique customer ids. -/
theorem run_ops_preserves_uniqueIds (db : DB) (ops : List Op)
    (h : uniqueIds db) : uniqueIds (run_ops db ops) := by
  induction ops generalizing db with
  | nil => exact h
  | cons op rest ih =>
    have hstep : run_ops db (op :: rest) = run_ops (apply_op db op) rest := rfl
    rw [hstep]
    exact ih (apply_op db op) (apply_op_preserves_uniqueIds db op h)

/-- Witness for C8: a concrete run (add, duplicate add, update, delete,
search, count) from a concrete two-row unique-id state. -/
theorem run_ops_preserves_uniqueIds_witness :
    uniqueIds (run_ops
      [⟨"1", "Ada", "L", "a1", "p1", "e1", "Active", 5⟩,
       ⟨"2", "Bob", "M", "a2", "p2", "e2", "Inactive", 9⟩]
      [.add "3" "Cyd" "N" "a3" "p3" "e3" "Active" 7,
       .add "1" "Eve" "O" "a4" "p4" "e4" "Active" 8,
       .update "2" 100, .delete "1", .search "3", .listActive]) :=
  run_ops_preserves_uniqueIds
    [⟨"1", "Ada", "L", "a1", "p1", "e1", "Active", 5⟩,
     ⟨"2", "Bob", "M", "a2", "p2", "e2", "Inactive", 9⟩]
    [.add "3" "Cyd" "N" "a3" "p3" "e3" "Active" 7,
     .add "1" "Eve" "O" "a4" "p4" "e4" "Active" 8,
     .update "2" 100, .delete "1", .search "3", .listActive]
    (by unfold uniqueIds ; decide)
